import Mathlib

/-!
Shallow embedding of `InlineEditorToolbar`
(src/plugins/rich-editor/src/scripts/components/InlineEditorToolbar.jsx).

Pixel quantities (bounds, element sizes, coordinates) are JavaScript
numbers; the values the component manipulates are rationals, so they are
modelled as `ℚ`, with `Math.round` modelled by Mathlib's `round`
(both compute `⌊x + 1/2⌋`).  Quill range indices and lengths, and line
lengths, are modelled as `ℤ` (JS number arithmetic on integer values,
including the possibly negative `lastLine.length() - 1`).

DOM elements that may not be rendered yet (`this.toolbar`, `this.nub`)
are modelled as `Option Element`; reading a property of a missing element
is a TypeError in JS, modelled by `Except.error ()`.
-/

namespace Vanilla

/-- A selection bounding box as reported by `quill.getBounds`. -/
structure Bounds where
  left : ℚ
  right : ℚ
  top : ℚ
  bottom : ℚ
deriving DecidableEq

/-- A quill `Range` (`{index, length}`). -/
structure QRange where
  index : ℤ
  length : ℤ
deriving DecidableEq

/-- A quill line blot; the only operation used is `line.length()`. -/
structure Line where
  length : ℤ
deriving DecidableEq

/-- The slice of the Quill API the component uses: `getLines`,
`getBounds`, `getIndex` and `root.offsetWidth`. -/
structure QuillModel where
  getLines : ℤ → ℤ → List Line
  getBounds : QRange → Bounds
  getIndex : Line → ℤ
  rootOffsetWidth : ℚ

/-- A rendered DOM element, exposing the measured `offsetWidth` and
`offsetHeight` used by the coordinate computations. -/
structure Element where
  offsetWidth : ℚ
  offsetHeight : ℚ
deriving DecidableEq

/-- Output of `makeXCoordinates`. -/
structure XCoords where
  toolbarPosition : ℚ
  nubPosition : ℚ
deriving DecidableEq

/-- Output of `makeYCoordinates`. -/
structure YCoords where
  toolbarPosition : ℚ
  nubPosition : ℚ
deriving DecidableEq

/-- Output of `getCoordinates`. -/
structure Coordinates where
  x : ℚ
  y : ℚ
  nubX : ℚ
  nubY : ℚ
deriving DecidableEq

/-- The component state (`this.state`): visibility flag and the four
position offsets. -/
structure ToolbarState where
  isVisible : Bool
  x : ℚ
  y : ℚ
  nubX : ℚ
  nubY : ℚ
deriving DecidableEq

/-- The event type tag of a quill editor-change event. -/
inductive EventType where
  | selectionChange
  | textChange
deriving DecidableEq

/-- The source tag of a quill event (`Emitter.sources`). -/
inductive Source where
  | user
  | api
  | silent
deriving DecidableEq

/-- `makeXCoordinates` (InlineEditorToolbar.jsx lines 146-166).
`containerSize` is `this.quill.root.offsetWidth`, `selfSize` is
`this.toolbar.offsetWidth`, `nubSize` is `this.nub.offsetWidth`;
the element reads themselves are performed by the caller. -/
def makeXCoordinates (bounds : Bounds) (containerSize selfSize nubSize : ℚ) : XCoords :=
  let padding : ℚ := 12
  let start := bounds.left
  let stop := bounds.right
  let halfToolbarSize := selfSize / 2
  let mn := halfToolbarSize + padding
  let mx := containerSize - halfToolbarSize - padding
  let averageOffset : ℚ := ((round ((start + stop) / 2) : ℤ) : ℚ)
  let toolbarPosition := max mn (min mx averageOffset) - halfToolbarSize
  let nubPosition := averageOffset - toolbarPosition - nubSize / 2
  { toolbarPosition := toolbarPosition, nubPosition := nubPosition }

/-- `makeYCoordinates` (InlineEditorToolbar.jsx lines 177-194).
`toolbarHeight` is `this.toolbar.offsetHeight`, `nubHeight` is
`this.nub.offsetHeight`. -/
def makeYCoordinates (bounds : Bounds) (toolbarHeight nubHeight : ℚ) : YCoords :=
  let offset : ℚ := 6
  let toolbarPosition := bounds.top - toolbarHeight - offset
  let nubPosition := toolbarHeight - nubHeight / 2
  let isNearStart := bounds.top < 30
  if isNearStart then
    { toolbarPosition := bounds.bottom + offset, nubPosition := 0 - nubHeight / 2 }
  else
    { toolbarPosition := toolbarPosition, nubPosition := nubPosition }

/-- `getCoordinates` (InlineEditorToolbar.jsx lines 123-135), after the
reads of `this.toolbar` and `this.nub` have succeeded. -/
def getCoordinates (bounds : Bounds) (containerWidth : ℚ) (toolbar nub : Element) :
    Coordinates :=
  let x := makeXCoordinates bounds containerWidth toolbar.offsetWidth nub.offsetWidth
  let y := makeYCoordinates bounds toolbar.offsetHeight nub.offsetHeight
  { x := x.toolbarPosition, y := y.toolbarPosition,
    nubX := x.nubPosition, nubY := y.nubPosition }

/-- The state produced by `this.setState({...coordinates, isVisible: true})`:
all four position fields are replaced by the freshly computed coordinates. -/
def visibleStateFor (coordinates : Coordinates) : ToolbarState :=
  { isVisible := true, x := coordinates.x, y := coordinates.y,
    nubX := coordinates.nubX, nubY := coordinates.nubY }

/-- `handleEditorChange` (InlineEditorToolbar.jsx lines 78-110), as a
state transformer.  `setState({...coordinates, isVisible:true})` replaces
all four position fields; `setState({isVisible:false})` merges, leaving
the position fields untouched.  Reading a property of a missing element
(`this.toolbar`/`this.nub` not rendered), or indexing an empty line list
in the multi-line branch, is a runtime TypeError, modelled as
`Except.error ()`. -/
def handleEditorChange (quill : QuillModel) (toolbar nub : Option Element)
    (type : EventType) (range : Option QRange) (source : Source)
    (state : ToolbarState) : Except Unit ToolbarState :=
  if type ≠ EventType.selectionChange then
    Except.ok state
  else
    match range with
    | some r =>
      if r.length > 0 ∧ source = Source.user then
        let numLines := quill.getLines r.index r.length
        if numLines.length = 1 then
          match toolbar, nub with
          | some tb, some nb =>
            let bounds := quill.getBounds r
            let coordinates := getCoordinates bounds quill.rootOffsetWidth tb nb
            Except.ok (visibleStateFor coordinates)
          | _, _ => Except.error ()
        else
          match numLines.getLast? with
          | some lastLine =>
            match toolbar, nub with
            | some tb, some nb =>
              let index := quill.getIndex lastLine
              let len := min (lastLine.length - 1) (r.index + r.length - index)
              let bounds := quill.getBounds { index := index, length := len }
              let coordinates := getCoordinates bounds quill.rootOffsetWidth tb nb
              Except.ok (visibleStateFor coordinates)
            | _, _ => Except.error ()
          | none => Except.error ()
      else
        Except.ok { state with isVisible := false }
    | none => Except.ok { state with isVisible := false }

/-- The initial component state set in the constructor, with the string
`"50%"` for `nubX` modelled as `0` (the claims never depend on it). -/
def initialState : ToolbarState :=
  { isVisible := false, x := 0, y := 0, nubX := 0, nubY := 0 }

/-- A concrete quill fixture whose selections always report a single line
of length 5 and the bounds `{left:100, right:140, top:50, bottom:70}`. -/
def sampleQuill : QuillModel :=
  { getLines := fun _ _ => [⟨5⟩],
    getBounds := fun _ => ⟨100, 140, 50, 70⟩,
    getIndex := fun _ => 0,
    rootOffsetWidth := 500 }

/-- A concrete quill fixture whose selections report two lines (lengths 4
and 6), where the last line starts at index 7 and bounds echo the
requested range. -/
def multilineQuill : QuillModel :=
  { getLines := fun _ _ => [⟨4⟩, ⟨6⟩],
    getBounds := fun rg => ⟨(rg.index : ℚ), ((rg.index + rg.length : ℤ) : ℚ), 40, 60⟩,
    getIndex := fun _ => 7,
    rootOffsetWidth := 500 }

/-- A concrete measured toolbar element: 200 wide, 30 tall. -/
def sampleToolbar : Element := ⟨200, 30⟩

/-- A concrete measured nub element: 10 wide, 8 tall. -/
def sampleNub : Element := ⟨10, 8⟩

instance : DecidableEq (Except Unit ToolbarState) :=
  fun a b =>
    match a, b with
    | Except.ok x, Except.ok y =>
      if h : x = y then Decidable.isTrue (by rw [h])
      else Decidable.isFalse (by simp [h])
    | Except.error x, Except.error y =>
      Decidable.isTrue (by cases x; cases y; rfl)
    | Except.ok _, Except.error _ => Decidable.isFalse (by simp)
    | Except.error _, Except.ok _ => Decidable.isFalse (by simp)

/-- Characterization of `handleEditorChange` on a selection-change event
once both elements are rendered: the element matches reduce away, leaving
the range/source/line-count case analysis of the source. -/
lemma handleEditorChange_elems_eq (quill : QuillModel) (tb nb : Element)
    (range : Option QRange) (source : Source) (state : ToolbarState) :
    handleEditorChange quill (some tb) (some nb) EventType.selectionChange
        range source state =
      match range with
      | some r =>
        if r.length > 0 ∧ source = Source.user then
          let numLines := quill.getLines r.index r.length
          if numLines.length = 1 then
            Except.ok (visibleStateFor
              (getCoordinates (quill.getBounds r) quill.rootOffsetWidth tb nb))
          else
            match numLines.getLast? with
            | some lastLine =>
              Except.ok (visibleStateFor
                (getCoordinates (quill.getBounds
                    { index := quill.getIndex lastLine,
                      length := min (lastLine.length - 1)
                        (r.index + r.length - quill.getIndex lastLine) })
                  quill.rootOffsetWidth tb nb))
            | none => Except.error ()
        else Except.ok { state with isVisible := false }
      | none => Except.ok { state with isVisible := false } := by
  cases range <;> rfl

/-- On a selection-change event whose range is null, or empty, or whose
source is not user interaction, the handler merges `{isVisible: false}`
into the previous state, for any element availability. -/
lemma handleEditorChange_hidden_eq (quill : QuillModel) (toolbar nub : Option Element)
    (range : Option QRange) (source : Source) (state : ToolbarState)
    (hcond : ∀ r, range = some r → ¬(r.length > 0 ∧ source = Source.user)) :
    handleEditorChange quill toolbar nub EventType.selectionChange range source state =
      Except.ok { state with isVisible := false } := by
  cases range with
  | none => rfl
  | some r =>
    show (if r.length > 0 ∧ source = Source.user then _ else _ :
        Except Unit ToolbarState) = _
    rw [if_neg (hcond r rfl)]

/-- On a selection-change event with a non-empty user range, once both
elements are rendered, the handler dispatches on the number of lines the
range spans. -/
lemma handleEditorChange_visible_eq (quill : QuillModel) (tb nb : Element)
    (r : QRange) (source : Source) (state : ToolbarState)
    (hc : r.length > 0 ∧ source = Source.user) :
    handleEditorChange quill (some tb) (some nb) EventType.selectionChange
        (some r) source state =
      if (quill.getLines r.index r.length).length = 1 then
        Except.ok (visibleStateFor
          (getCoordinates (quill.getBounds r) quill.rootOffsetWidth tb nb))
      else
        match (quill.getLines r.index r.length).getLast? with
        | some lastLine =>
          Except.ok (visibleStateFor
            (getCoordinates (quill.getBounds
                { index := quill.getIndex lastLine,
                  length := min (lastLine.length - 1)
                    (r.index + r.length - quill.getIndex lastLine) })
              quill.rootOffsetWidth tb nb))
        | none => Except.error () := by
  show (if r.length > 0 ∧ source = Source.user then _ else _ :
      Except Unit ToolbarState) = _
  rw [if_pos hc]

/-- On a selection-change event with a non-empty user range while the
toolbar or nub element is missing, the handler faults: every branch of
the visible path reads a property of the missing element. -/
lemma handleEditorChange_missing_visible_eq (quill : QuillModel)
    (toolbar nub : Option Element) (r : QRange) (source : Source)
    (state : ToolbarState)
    (hdim : toolbar = none ∨ nub = none)
    (hc : r.length > 0 ∧ source = Source.user) :
    handleEditorChange quill toolbar nub EventType.selectionChange
        (some r) source state = Except.error () := by
  show (if r.length > 0 ∧ source = Source.user then _ else _ :
      Except Unit ToolbarState) = _
  rw [if_pos hc]
  rcases hdim with h | h <;> subst h
  · split
    · rfl
    · split
      · rfl
      · rfl
  · split
    · cases toolbar <;> rfl
    · split
      · cases toolbar <;> rfl
      · rfl

end Vanilla

namespace Vanilla

/-- C1: for every selection bounds with `left ≤ right` and all sizes,
`toolbarX + nubX + nubWidth/2 = round((left+right)/2)`: the nub position
recovers the selection midpoint relative to the chosen toolbar position,
even when the toolbar center was clamped. -/
theorem nub_recovers_midpoint (bounds : Bounds) (containerSize selfSize nubSize : ℚ)
    (_hlr : bounds.left ≤ bounds.right) :
    (makeXCoordinates bounds containerSize selfSize nubSize).toolbarPosition +
      (makeXCoordinates bounds containerSize selfSize nubSize).nubPosition +
      nubSize / 2 =
    ((round ((bounds.left + bounds.right) / 2) : ℤ) : ℚ) := by
  simp only [makeXCoordinates]
  ring

/-- Witness for C1 at `bounds = {left:100, right:140, top:50, bottom:70}`,
`containerSize=500`, `selfSize=200`, `nubSize=10`. -/
theorem nub_recovers_midpoint_witness :
    (100 : ℚ) ≤ 140 ∧
    (makeXCoordinates ⟨100, 140, 50, 70⟩ 500 200 10).toolbarPosition +
      (makeXCoordinates ⟨100, 140, 50, 70⟩ 500 200 10).nubPosition + 10 / 2 =
      ((round (((100 : ℚ) + 140) / 2) : ℤ) : ℚ) :=
  ⟨by norm_num, nub_recovers_midpoint ⟨100, 140, 50, 70⟩ 500 200 10 (by norm_num)⟩

/-- C2: whenever `containerSize ≥ selfSize + 2*12` (and the measured
toolbar width is non-negative, as every DOM `offsetWidth` is), the
toolbar center `toolbarX + selfSize/2` lies within
`[12, containerSize - 12]`, and the toolbar extent
`[toolbarX, toolbarX + selfSize]` lies within `[12, containerSize - 12]`. -/
theorem toolbar_stays_clamped (bounds : Bounds) (containerSize selfSize nubSize : ℚ)
    (hw : 0 ≤ selfSize) (hc : selfSize + 2 * 12 ≤ containerSize) :
    (12 ≤ (makeXCoordinates bounds containerSize selfSize nubSize).toolbarPosition +
        selfSize / 2 ∧
      (makeXCoordinates bounds containerSize selfSize nubSize).toolbarPosition +
        selfSize / 2 ≤ containerSize - 12) ∧
    (12 ≤ (makeXCoordinates bounds containerSize selfSize nubSize).toolbarPosition ∧
      (makeXCoordinates bounds containerSize selfSize nubSize).toolbarPosition +
        selfSize ≤ containerSize - 12) := by
  have h1 : selfSize / 2 + 12 ≤
      max (selfSize / 2 + 12) (min (containerSize - selfSize / 2 - 12)
        ((round ((bounds.left + bounds.right) / 2) : ℤ) : ℚ)) :=
    le_max_left _ _
  have h2 : max (selfSize / 2 + 12) (min (containerSize - selfSize / 2 - 12)
      ((round ((bounds.left + bounds.right) / 2) : ℤ) : ℚ)) ≤
      containerSize - selfSize / 2 - 12 :=
    max_le (by linarith) (min_le_left _ _)
  simp only [makeXCoordinates]
  refine ⟨⟨by linarith, by linarith⟩, by linarith, by linarith⟩

/-- Witness for C2 at `bounds = {left:100, right:140, top:50, bottom:70}`,
`containerSize=500`, `selfSize=200`, `nubSize=10` (where `toolbarX = 20`). -/
theorem toolbar_stays_clamped_witness :
    (0 : ℚ) ≤ 200 ∧ (200 : ℚ) + 2 * 12 ≤ 500 ∧
    ((12 ≤ (makeXCoordinates ⟨100, 140, 50, 70⟩ 500 200 10).toolbarPosition + 200 / 2 ∧
      (makeXCoordinates ⟨100, 140, 50, 70⟩ 500 200 10).toolbarPosition + 200 / 2 ≤
        500 - 12) ∧
     (12 ≤ (makeXCoordinates ⟨100, 140, 50, 70⟩ 500 200 10).toolbarPosition ∧
      (makeXCoordinates ⟨100, 140, 50, 70⟩ 500 200 10).toolbarPosition + 200 ≤
        500 - 12)) :=
  ⟨by norm_num, by norm_num,
    toolbar_stays_clamped ⟨100, 140, 50, 70⟩ 500 200 10 (by norm_num) (by norm_num)⟩

/-- C3: when `containerSize < selfSize + 2*12` (so `min > max`), the
clamp still resolves deterministically to `min`, hence the clamped
center is `selfSize/2 + 12` and `toolbarX = 12`, regardless of the
selection midpoint. -/
theorem clamp_degenerate_container (bounds : Bounds)
    (containerSize selfSize nubSize : ℚ)
    (hc : containerSize < selfSize + 2 * 12) :
    (makeXCoordinates bounds containerSize selfSize nubSize).toolbarPosition +
        selfSize / 2 = selfSize / 2 + 12 ∧
    (makeXCoordinates bounds containerSize selfSize nubSize).toolbarPosition = 12 := by
  have hmx : min (containerSize - selfSize / 2 - 12)
      ((round ((bounds.left + bounds.right) / 2) : ℤ) : ℚ) ≤ selfSize / 2 + 12 :=
    le_trans (min_le_left _ _) (by linarith)
  have hclamp : max (selfSize / 2 + 12) (min (containerSize - selfSize / 2 - 12)
      ((round ((bounds.left + bounds.right) / 2) : ℤ) : ℚ)) = selfSize / 2 + 12 :=
    max_eq_left hmx
  simp only [makeXCoordinates, hclamp]
  constructor <;> ring

/-- Witness for C3 at the spec's example: `bounds={left:100,right:140}`,
`selfSize=200`, `containerSize=150`: the clamped center is
`112 = 200/2 + 12` and `toolbarX = 12`. -/
theorem clamp_degenerate_container_witness :
    (150 : ℚ) < 200 + 2 * 12 ∧
    ((makeXCoordinates ⟨100, 140, 50, 70⟩ 150 200 10).toolbarPosition + 200 / 2 =
        200 / 2 + 12 ∧
      (makeXCoordinates ⟨100, 140, 50, 70⟩ 150 200 10).toolbarPosition = 12) :=
  ⟨by norm_num, clamp_degenerate_container ⟨100, 140, 50, 70⟩ 150 200 10 (by norm_num)⟩

/-- C4: the vertical computation returns
`toolbarY = top - toolbarHeight - 6`, `nubY = toolbarHeight - nubHeight/2`
when `top ≥ 30`, and flips to `toolbarY = bottom + 6`,
`nubY = -nubHeight/2` exactly when `top < 30`. -/
theorem yCoordinates_flip_iff (bounds : Bounds) (toolbarHeight nubHeight : ℚ) :
    makeYCoordinates bounds toolbarHeight nubHeight =
      if bounds.top < 30 then
        { toolbarPosition := bounds.bottom + 6, nubPosition := -(nubHeight / 2) }
      else
        { toolbarPosition := bounds.top - toolbarHeight - 6,
          nubPosition := toolbarHeight - nubHeight / 2 } := by
  simp only [makeYCoordinates]
  split <;> simp [YCoords.mk.injEq, zero_sub]

/-- A prior component state with non-trivial position fields, used to
observe which fields an event leaves untouched. -/
def alteredState : ToolbarState :=
  { isVisible := true, x := 1, y := 2, nubX := 3, nubY := 4 }

/-- C5: on a selection-change event (with both elements rendered), the
resulting state is visible exactly when the event carries a non-null
range with `length > 0` and the change source is user interaction;
otherwise (empty or null range, or non-user source) it is hidden. -/
theorem visible_iff_nonempty_user_range (quill : QuillModel) (tb nb : Element)
    (range : Option QRange) (source : Source) (s s' : ToolbarState)
    (h : handleEditorChange quill (some tb) (some nb) EventType.selectionChange
        range source s = Except.ok s') :
    (s'.isVisible = true ↔
      ∃ r, range = some r ∧ r.length > 0 ∧ source = Source.user) := by
  cases range with
  | none =>
    rw [handleEditorChange_hidden_eq quill _ _ none source s
      (by intro r hr; cases hr)] at h
    injection h with h'
    subst h'
    simp
  | some r =>
    by_cases hc : r.length > 0 ∧ source = Source.user
    · rw [handleEditorChange_visible_eq quill tb nb r source s hc] at h
      constructor
      · intro _
        exact ⟨r, rfl, hc⟩
      · intro _
        split at h
        · injection h with h'
          rw [← h']
          rfl
        · split at h
          · injection h with h'
            rw [← h']
            rfl
          · exact Except.noConfusion h
    · rw [handleEditorChange_hidden_eq quill _ _ (some r) source s
        (by intro r' hr'; injection hr' with e; subst e; exact hc)] at h
      injection h with h'
      subst h'
      constructor
      · intro hfalse
        exact absurd hfalse (by simp)
      · rintro ⟨r', hr', hlen, hsrc⟩
        injection hr' with e
        subst e
        exact absurd ⟨hlen, hsrc⟩ hc

/-- Witness for C5: a single-line user selection of length 4 over
`sampleQuill` yields the visible state with coordinates
`x = 20, y = 14, nubX = 95, nubY = 26`. -/
theorem visible_iff_nonempty_user_range_witness :
    (({ isVisible := true, x := 20, y := 14, nubX := 95, nubY := 26 } :
        ToolbarState).isVisible = true ↔
      ∃ r, (some (⟨3, 4⟩ : QRange) : Option QRange) = some r ∧
        r.length > 0 ∧ Source.user = Source.user) :=
  visible_iff_nonempty_user_range sampleQuill sampleToolbar sampleNub
    (some ⟨3, 4⟩) Source.user initialState
    { isVisible := true, x := 20, y := 14, nubX := 95, nubY := 26 }
    (by
      rw [handleEditorChange_visible_eq sampleQuill sampleToolbar sampleNub
        ⟨3, 4⟩ Source.user initialState ⟨by decide, rfl⟩]
      rw [if_pos (by decide : (sampleQuill.getLines 3 4).length = 1)]
      norm_num [getCoordinates, makeXCoordinates, makeYCoordinates,
        visibleStateFor, sampleQuill, sampleToolbar, sampleNub, round_eq])

/-- C6 counterexample: a selection-change event with a non-empty user
range arriving while neither the toolbar nor the nub element is rendered
does not leave the component hidden with the computation skipped — the
handler faults reading the missing dimensions. -/
theorem missing_dims_fault_counterexample :
    handleEditorChange sampleQuill none none EventType.selectionChange
      (some ⟨3, 4⟩) Source.user initialState = Except.error () := by
  decide

/-- C6 amended: there is no defensive guard.  While the toolbar or nub
element is unavailable, a selection-change event with a non-empty user
range makes the handler read a property of the missing element (a
runtime TypeError); only the hidden path (null range, empty range, or
non-user source) completes, merging `{isVisible: false}` without
touching the dimensions. -/
theorem missing_dims_no_guard (quill : QuillModel) (toolbar nub : Option Element)
    (range : Option QRange) (source : Source) (s : ToolbarState)
    (hdim : toolbar = none ∨ nub = none) :
    handleEditorChange quill toolbar nub EventType.selectionChange
        range source s =
      match range with
      | some r =>
        if r.length > 0 ∧ source = Source.user then Except.error ()
        else Except.ok { s with isVisible := false }
      | none => Except.ok { s with isVisible := false } := by
  cases range with
  | none =>
    exact handleEditorChange_hidden_eq quill toolbar nub none source s
      (fun r hr => by cases hr)
  | some r =>
    by_cases hc : r.length > 0 ∧ source = Source.user
    · rw [handleEditorChange_missing_visible_eq quill toolbar nub r source s hdim hc]
      exact (if_pos hc).symm
    · rw [handleEditorChange_hidden_eq quill toolbar nub (some r) source s
        (fun r' hr' => by injection hr' with e; subst e; exact hc)]
      exact (if_neg hc).symm

/-- Witness for C6's amended theorem: with the toolbar element missing
(and the nub rendered), a non-empty user selection faults. -/
theorem missing_dims_no_guard_witness :
    handleEditorChange sampleQuill none (some sampleNub) EventType.selectionChange
        (some ⟨3, 4⟩) Source.user initialState =
      match (some (⟨3, 4⟩ : QRange) : Option QRange) with
      | some r =>
        if r.length > 0 ∧ Source.user = Source.user then Except.error ()
        else Except.ok { initialState with isVisible := false }
      | none => Except.ok { initialState with isVisible := false } :=
  missing_dims_no_guard sampleQuill none (some sampleNub) (some ⟨3, 4⟩)
    Source.user initialState (Or.inl rfl)

/-- C7: when the user selection spans more than one line, the bounds fed
to the coordinate computation are those of the final line's portion only:
the range starting at the last line's index with length
`min(lastLine.length() - 1, selectionEnd - lastLineIndex)`. -/
theorem multiline_uses_last_line (quill : QuillModel) (tb nb : Element)
    (r : QRange) (source : Source) (s : ToolbarState) (lastLine : Line)
    (hr : r.length > 0) (hs : source = Source.user)
    (hml : 1 < (quill.getLines r.index r.length).length)
    (hlast : (quill.getLines r.index r.length).getLast? = some lastLine) :
    handleEditorChange quill (some tb) (some nb) EventType.selectionChange
        (some r) source s =
      Except.ok (visibleStateFor
        (getCoordinates (quill.getBounds
            { index := quill.getIndex lastLine,
              length := min (lastLine.length - 1)
                (r.index + r.length - quill.getIndex lastLine) })
          quill.rootOffsetWidth tb nb)) := by
  rw [handleEditorChange_visible_eq quill tb nb r source s ⟨hr, hs⟩]
  rw [if_neg (by omega : ¬(quill.getLines r.index r.length).length = 1)]
  rw [hlast]

/-- Witness for C7: over `multilineQuill` (two lines, last line of
length 6 starting at index 7), the user selection `{index:5, length:6}`
is positioned from the bounds of the range `{index:7, length:4}`
(`4 = min(6-1, 5+6-7)`). -/
theorem multiline_uses_last_line_witness :
    handleEditorChange multilineQuill (some sampleToolbar) (some sampleNub)
        EventType.selectionChange (some ⟨5, 6⟩) Source.user initialState =
      Except.ok (visibleStateFor
        (getCoordinates (multilineQuill.getBounds
            { index := multilineQuill.getIndex ⟨6⟩,
              length := min ((6 : ℤ) - 1)
                (5 + 6 - multilineQuill.getIndex ⟨6⟩) })
          multilineQuill.rootOffsetWidth sampleToolbar sampleNub)) :=
  multiline_uses_last_line multilineQuill sampleToolbar sampleNub ⟨5, 6⟩
    Source.user initialState ⟨6⟩ (by decide) rfl (by decide) (by decide)

/-- C8 counterexample: the post-event state is not a function of the
event alone — the same empty-range selection-change event applied to two
different prior states yields different resulting states (the retained
position fields differ). -/
theorem state_depends_on_prior_state :
    handleEditorChange sampleQuill (some sampleToolbar) (some sampleNub)
        EventType.selectionChange none Source.user initialState ≠
      handleEditorChange sampleQuill (some sampleToolbar) (some sampleNub)
        EventType.selectionChange none Source.user alteredState := by
  decide

/-- C8 amended: only the visibility flag of the resulting state is purely
a function of the latest selection-change event (and the measured
geometry); the full state is event-determined only when the event makes
the toolbar visible, since hidden transitions retain the prior position
fields. -/
theorem visibility_event_determined (quill : QuillModel) (tb nb : Element)
    (range : Option QRange) (source : Source) (s₁ s₂ t₁ t₂ : ToolbarState)
    (h₁ : handleEditorChange quill (some tb) (some nb) EventType.selectionChange
        range source s₁ = Except.ok t₁)
    (h₂ : handleEditorChange quill (some tb) (some nb) EventType.selectionChange
        range source s₂ = Except.ok t₂) :
    t₁.isVisible = t₂.isVisible ∧ (t₁.isVisible = true → t₁ = t₂) := by
  cases range with
  | none =>
    rw [handleEditorChange_hidden_eq quill _ _ none source s₁
      (by intro r hr; cases hr)] at h₁
    rw [handleEditorChange_hidden_eq quill _ _ none source s₂
      (by intro r hr; cases hr)] at h₂
    injection h₁ with h₁'
    injection h₂ with h₂'
    subst h₁'
    subst h₂'
    exact ⟨rfl, fun hfalse => absurd hfalse (by simp)⟩
  | some r =>
    by_cases hc : r.length > 0 ∧ source = Source.user
    · rw [handleEditorChange_visible_eq quill tb nb r source s₁ hc] at h₁
      rw [handleEditorChange_visible_eq quill tb nb r source s₂ hc] at h₂
      have h := h₁.symm.trans h₂
      injection h with h'
      subst h'
      exact ⟨rfl, fun _ => rfl⟩
    · rw [handleEditorChange_hidden_eq quill _ _ (some r) source s₁
        (by intro r' hr'; injection hr' with e; subst e; exact hc)] at h₁
      rw [handleEditorChange_hidden_eq quill _ _ (some r) source s₂
        (by intro r' hr'; injection hr' with e; subst e; exact hc)] at h₂
      injection h₁ with h₁'
      injection h₂ with h₂'
      subst h₁'
      subst h₂'
      exact ⟨rfl, fun hfalse => absurd hfalse (by simp)⟩

/-- Witness for C8's amended theorem: an empty-range event applied to the
initial state and to a state with different position fields yields states
agreeing on visibility (both hidden). -/
theorem visibility_event_determined_witness :
    ({ initialState with isVisible := false } : ToolbarState).isVisible =
        ({ alteredState with isVisible := false } : ToolbarState).isVisible ∧
      (({ initialState with isVisible := false } : ToolbarState).isVisible = true →
        ({ initialState with isVisible := false } : ToolbarState) =
          { alteredState with isVisible := false }) :=
  visibility_event_determined sampleQuill sampleToolbar sampleNub
    (some ⟨3, 0⟩) Source.user initialState alteredState
    { initialState with isVisible := false }
    { alteredState with isVisible := false } (by decide) (by decide)

/-- C9: every transition to the hidden state (null range, empty range, or
non-user source) changes only the visibility flag: the four position
fields retain the values they held before the event. -/
theorem hidden_transition_preserves_position (quill : QuillModel)
    (toolbar nub : Option Element) (range : Option QRange) (source : Source)
    (s s' : ToolbarState)
    (hcond : range = none ∨
      ∃ r, range = some r ∧ (r.length ≤ 0 ∨ source ≠ Source.user))
    (h : handleEditorChange quill toolbar nub EventType.selectionChange
        range source s = Except.ok s') :
    s'.isVisible = false ∧ s'.x = s.x ∧ s'.y = s.y ∧
      s'.nubX = s.nubX ∧ s'.nubY = s.nubY := by
  have hc : ∀ r, range = some r → ¬(r.length > 0 ∧ source = Source.user) := by
    intro r hr
    rcases hcond with hnone | ⟨r', hr', hbad⟩
    · rw [hnone] at hr
      cases hr
    · rw [hr'] at hr
      injection hr with e
      subst e
      rintro ⟨hlen, hsrc⟩
      rcases hbad with hb | hb
      · exact absurd hlen (not_lt.mpr hb)
      · exact hb hsrc
  rw [handleEditorChange_hidden_eq quill toolbar nub range source s hc] at h
  injection h with h'
  subst h'
  exact ⟨rfl, rfl, rfl, rfl, rfl⟩

/-- Witness for C9: an empty user range applied to a state with position
`(1, 2, 3, 4)` hides the toolbar and keeps all four position fields. -/
theorem hidden_transition_preserves_position_witness :
    ({ alteredState with isVisible := false } : ToolbarState).isVisible = false ∧
      ({ alteredState with isVisible := false } : ToolbarState).x = alteredState.x ∧
      ({ alteredState with isVisible := false } : ToolbarState).y = alteredState.y ∧
      ({ alteredState with isVisible := false } : ToolbarState).nubX = alteredState.nubX ∧
      ({ alteredState with isVisible := false } : ToolbarState).nubY = alteredState.nubY :=
  hidden_transition_preserves_position sampleQuill (some sampleToolbar)
    (some sampleNub) (some ⟨3, 0⟩) Source.user alteredState
    { alteredState with isVisible := false }
    (Or.inr ⟨⟨3, 0⟩, rfl, Or.inl (by decide)⟩) (by decide)

/-- C10: an editor event whose type is not a selection-change event
leaves the component state entirely unchanged: the handler returns early
before reading the range, the source or any geometry. -/
theorem non_selection_event_noop (quill : QuillModel)
    (toolbar nub : Option Element) (type : EventType) (range : Option QRange)
    (source : Source) (s : ToolbarState)
    (h : type ≠ EventType.selectionChange) :
    handleEditorChange quill toolbar nub type range source s = Except.ok s := by
  unfold handleEditorChange
  rw [if_pos h]

/-- Witness for C10: a text-change event with a non-empty user range
leaves a fully populated state untouched. -/
theorem non_selection_event_noop_witness :
    handleEditorChange sampleQuill (some sampleToolbar) (some sampleNub)
        EventType.textChange (some ⟨3, 4⟩) Source.user alteredState =
      Except.ok alteredState :=
  non_selection_event_noop sampleQuill (some sampleToolbar) (some sampleNub)
    EventType.textChange (some ⟨3, 4⟩) Source.user alteredState (by decide)

end Vanilla
